import Mathlib

/-!
Shallow embedding of the perm_tracker repository: the ETA estimator
(`estimate.py`), the PERM scraper's response parsing (`perm_scraper.py`),
the OAuth2 USCIS case-status client (`src/uscis_tracker/case_status_api.py`)
and the two email notifiers (`notifier.py`, `src/uscis_tracker/notifier.py`).

Modelling conventions:
  * Python ints are `Int`.  The estimator's float expressions are embedded
    exactly: `math.ceil(position / processing_rate)` is the exact ceiling
    division `ceil_div`, `math.ceil(days * 0.2)` is `ceil_div days 5`, the
    confidence weights 0.3/0.2/0.15/0.1/0.05 and thresholds 0.7/0.5 are
    kept in integer hundredths, and `round(progress, 1)` keeps the
    percentage in integer tenths.  For every magnitude the claims touch,
    IEEE-double evaluation in the source agrees with these exact values.
  * Dates are day numbers (`Int`), counted so that day 0 is a Monday;
    `datetime.weekday()` is then `d % 7` with Monday = 0 ... Sunday = 6,
    exactly as in Python (for a concrete calendar date the day number is
    `date.toordinal() - 1`).  `datetime.now()` is passed in explicitly as a
    `today` argument; `strftime` formatting is left out (records hold the
    day numbers the formatted strings are produced from).  Python's
    `datetime` is bounded: `datetime.now() + timedelta(days=n)` raises
    `OverflowError` outside 0001-01-01 .. 9999-12-31 (day numbers
    0 .. `dt_max_day`), and the estimator's date builders return `none`
    there, sending `calculate_eta` down its exception path.
  * Python truthiness (`a or b`, `if position or ...`) is embedded by the
    `py*` helpers below: `0`, `""` and `None` are falsy.
  * `dict.get` chains over a JSON object are embedded by structures of
    `Option` fields, one per key the code reads.
-/

/-- Python `a or b` on optional ints: `None` and `0` are falsy. -/
def pyOrI : Option Int → Option Int → Option Int
  | some v, b => if v ≠ 0 then some v else b
  | none, b => b

/-- Python truthiness of an optional int. -/
def pyTruthyI : Option Int → Bool
  | some v => v ≠ 0
  | none => false

/-- Python `a or d` where `a` is an optional int and `d` an int default. -/
def pyGetI : Option Int → Int → Int
  | some v, d => if v ≠ 0 then v else d
  | none, d => d

/-- Python `a or d` where `a` is an optional string (empty string is falsy). -/
def pyGetS : Option String → String → String
  | some s, d => if s ≠ "" then s else d
  | none, d => d

/-- Python `a or b` on optional strings. -/
def pyOrS : Option String → Option String → Option String
  | some s, b => if s ≠ "" then some s else b
  | none, b => b

/-- Python truthiness of an optional string. -/
def pyTruthyS : Option String → Bool
  | some s => s ≠ ""
  | none => false

/-- Python `str.lower()` (the statuses the code matches on are ASCII). -/
def pyLower (s : String) : String := ⟨s.toList.map Char.toLower⟩

/-- Substring occurrence on character lists (`needle in hay`). -/
def listInfix (needle : List Char) : List Char → Bool
  | [] => needle.isEmpty
  | c :: rest => needle.isPrefixOf (c :: rest) || listInfix needle rest

/-- Python `needle in hay` on strings: substring containment. -/
def pyIn (needle hay : String) : Bool := listInfix needle.toList hay.toList

/-- Exact ceiling division `⌈a / b⌉` for `b ≠ 0` (what
`math.ceil(a / b)` computes on the int inputs the code divides). -/
def ceil_div (a b : Int) : Int := -((-a).fdiv b)

/-! ## ETA estimator (`estimate.py`, class `ETAEstimator`)

`config.DEFAULT_PROCESSING_RATE`, `config.MOCK_TOTAL_APPLICATIONS` and
`config.MOCK_POSITION` are environment-derived; they are passed as the
`default_processing_rate`, `mock_total` and `mock_position` arguments
(their stock defaults are 50, 5000 and 1500). -/

/-- `math.ceil(position / processing_rate)` with the non-positive-rate guard,
from `ETAEstimator._calculate_days_remaining` (first half). -/
def ETAEstimator.base_days (default_processing_rate position processing_rate : Int) : Int :=
  let rate := if processing_rate ≤ 0 then default_processing_rate else processing_rate
  ceil_div position rate

/-- `ETAEstimator._calculate_days_remaining`: base days plus a 20% buffer
(`math.ceil(days_remaining * 0.2)`, i.e. exactly `⌈days/5⌉`), floored at 1. -/
def ETAEstimator.calculate_days_remaining (default_processing_rate position processing_rate : Int) : Int :=
  let days_remaining := ETAEstimator.base_days default_processing_rate position processing_rate
  let buffer_days := ceil_div days_remaining 5
  max 1 (days_remaining + buffer_days)

/-- The `while approval_date.weekday() >= 5: approval_date += timedelta(days=1)`
loop, run with fuel; fuel 7 exceeds the loop's maximal two iterations, so
`skip_weekend_fuel 7` is exactly the loop (see `skip_weekend_fixpoint`). -/
def skip_weekend_fuel : Nat → Int → Int
  | 0, d => d
  | n + 1, d => if 5 ≤ d % 7 then skip_weekend_fuel n (d + 1) else d

/-- Day number of 9999-12-31, the date of `datetime.max`
(`date(9999, 12, 31).toordinal() - 1`); adding a `timedelta` that lands a
date outside day numbers 0 .. `dt_max_day` raises `OverflowError`. -/
def dt_max_day : Int := 3652058

/-- `ETAEstimator._calculate_approval_date`: today plus the remaining days,
advanced past Saturday/Sunday.  `none` models the `OverflowError` raised by
`datetime.now() + timedelta(days=days_remaining)` outside the `datetime`
range.  The weekend-skip `+= timedelta(days=1)` steps cannot themselves
overflow: day `dt_max_day` is a Friday, so every representable
Saturday/Sunday is at most `dt_max_day - 5` and skipping stops by
`dt_max_day - 4`. -/
def ETAEstimator.calculate_approval_date (today days_remaining : Int) : Option Int :=
  let d := today + days_remaining
  if d < 0 ∨ dt_max_day < d then none
  else some (skip_weekend_fuel 7 d)

/-- `ETAEstimator._determine_confidence_level`, score accumulation, in
integer hundredths (0.3 ↦ 30, 0.2 ↦ 20, 0.15 ↦ 15, 0.1 ↦ 10, 0.05 ↦ 5). -/
def ETAEstimator.confidence_score (position processing_rate days_remaining : Int) : Int :=
  (if position ≤ 100 then 30
   else if position ≤ 500 then 20
   else if position ≤ 1000 then 10
   else 5)
  + (if 100 ≤ processing_rate then 30
     else if 50 ≤ processing_rate then 20
     else if 25 ≤ processing_rate then 10
     else 5)
  + (if days_remaining ≤ 30 then 20
     else if days_remaining ≤ 90 then 15
     else if days_remaining ≤ 180 then 10
     else 5)
  + 10

/-- `ETAEstimator._determine_confidence_level`, final banding
(thresholds 0.7 and 0.5, i.e. 70 and 50 hundredths). -/
def ETAEstimator.determine_confidence_level (position processing_rate days_remaining : Int) : String :=
  let confidence_score := ETAEstimator.confidence_score position processing_rate days_remaining
  if 70 ≤ confidence_score then "High"
  else if 50 ≤ confidence_score then "Medium"
  else "Low"

/-- Python `round(a / b)` for `b > 0`, ties to even (banker's rounding). -/
def round_half_even_div (a b : Int) : Int :=
  let f := a.fdiv b
  let r := a - f * b
  if 2 * r < b then f
  else if b < 2 * r then f + 1
  else if f % 2 = 0 then f else f + 1

/-- `ETAEstimator._calculate_progress_percentage`, in integer tenths of a
percent: `round(max(0, min(100, (total - position) / total * 100)), 1)`.
The clamped rational `q` times 10 equals
`max 0 (min (1000·total) ((total - position)·1000)) / total` exactly. -/
def ETAEstimator.progress_tenths (mock_total position : Int) : Int :=
  if mock_total ≤ 0 then 0
  else round_half_even_div (max 0 (min (1000 * mock_total) ((mock_total - position) * 1000))) mock_total

/-- `ETAEstimator._calculate_processing_date`: like the approval date but
with the pre-buffer base days, with the same `datetime` overflow bound. -/
def ETAEstimator.calculate_processing_date (default_processing_rate today position processing_rate : Int) : Option Int :=
  let d := today + ETAEstimator.base_days default_processing_rate position processing_rate
  if d < 0 ∨ dt_max_day < d then none
  else some (skip_weekend_fuel 7 d)

/-- The dictionary `ETAEstimator.calculate_eta` (and `_get_fallback_eta`)
returns.  Date-valued entries hold the day number the `strftime` string is
produced from; `progress_percentage` is held in tenths of a percent. -/
structure ETAInfo where
  estimated_approval_date : Int
  days_remaining : Int
  confidence_level : String
  progress_percentage_tenths : Int
  estimated_processing_date : Int
  processing_rate : Int
  position_in_queue : Int
  submission_date : String
  is_fallback : Bool
deriving DecidableEq, Repr

/-- Day number (Monday-based, `toordinal() - 1`) of 2024-06-15, the
hardcoded `estimated_approval_date` of the last-resort fallback. -/
def day_2024_06_15 : Int := 739051

/-- Day number of 2024-03-15, the hardcoded `estimated_processing_date`. -/
def day_2024_03_15 : Int := 738959

/-- `ETAEstimator._get_fallback_eta`.  `parsed_submission` is the outcome of
`datetime.strptime(submission_date, '%Y-%m-%d')` as a day number (`none`
when parsing raises, which selects the hardcoded placeholder record). -/
def ETAEstimator.get_fallback_eta (default_processing_rate mock_position : Int) (today : Int)
    (parsed_submission : Option Int) (submission_date : String) : ETAInfo :=
  match parsed_submission with
  | some sub_day =>
      let days_since_submission := today - sub_day
      let estimated_days_remaining := max 30 (180 - days_since_submission)
      { estimated_approval_date := today + estimated_days_remaining
        days_remaining := estimated_days_remaining
        confidence_level := "Low"
        progress_percentage_tenths := 500
        estimated_processing_date := today + 60
        processing_rate := default_processing_rate
        position_in_queue := mock_position
        submission_date := submission_date
        is_fallback := true }
  | none =>
      { estimated_approval_date := day_2024_06_15
        days_remaining := 120
        confidence_level := "Low"
        progress_percentage_tenths := 500
        estimated_processing_date := day_2024_03_15
        processing_rate := default_processing_rate
        position_in_queue := mock_position
        submission_date := submission_date
        is_fallback := true }

/-- `ETAEstimator.calculate_eta`.  The `try` body performs no parsing and
no division by a zero rate (the rate guard substitutes the default), so
its only exception on integer inputs is the `datetime` `OverflowError`
from the approval-date computation (raised first) or the
processing-date computation; either sends control to the `except` handler,
which returns `_get_fallback_eta(submission_date)`.  `parsed_submission`
is the `strptime` outcome the fallback uses (see `get_fallback_eta`). -/
def ETAEstimator.calculate_eta (default_processing_rate mock_total mock_position : Int)
    (today : Int) (position processing_rate : Int) (parsed_submission : Option Int)
    (submission_date : String) : ETAInfo :=
  let days_remaining := ETAEstimator.calculate_days_remaining default_processing_rate position processing_rate
  match ETAEstimator.calculate_approval_date today days_remaining,
      ETAEstimator.calculate_processing_date default_processing_rate today position processing_rate with
  | some approval_date, some processing_date =>
      { estimated_approval_date := approval_date
        days_remaining := days_remaining
        confidence_level := ETAEstimator.determine_confidence_level position processing_rate days_remaining
        progress_percentage_tenths := ETAEstimator.progress_tenths mock_total position
        estimated_processing_date := processing_date
        processing_rate := processing_rate
        position_in_queue := position
        submission_date := submission_date
        is_fallback := false }
  | _, _ =>
      ETAEstimator.get_fallback_eta default_processing_rate mock_position today
        parsed_submission submission_date

/-! ## PERM scraper response parsing (`perm_scraper.py`, class `PERMScraper`) -/

/-- The JSON keys `PERMScraper._parse_api_response` reads (`none` = key
absent; a present key carries its value). -/
structure PermJson where
  queue_position : Option Int
  position : Option Int
  position_in_queue : Option Int
  processing_rate : Option Int
  rate : Option Int
  status : Option String
  completion_date : Option String
  estimated_date : Option String
  remaining_days : Option Int
  days_remaining : Option Int
  total_applications : Option Int
  backlog : Option Int
deriving DecidableEq, Repr

/-- A JSON object with no keys set. -/
def PermJson.empty : PermJson :=
  ⟨none, none, none, none, none, none, none, none, none, none, none, none⟩

/-- The dictionary returned by `PERMScraper._parse_api_response` (JSON branch). -/
structure PermApiRecord where
  position_in_queue : Int
  total_applications : Int
  last_processed_date : String
  processing_rate : Int
  status : String
  completion_date : Option String
  remaining_days : Option Int
  case_number : String
  submission_date : String
  employer_letter : String
deriving DecidableEq, Repr

/-- `PERMScraper._parse_api_response`, the JSON-success branch (a non-JSON
response body is dispatched to `_extract_status_from_results` instead).
`config.DEFAULT_PROCESSING_RATE`, `config.MOCK_POSITION` and
`config.MOCK_TOTAL_APPLICATIONS` are the three int parameters. -/
def PERMScraper.parse_api_response (default_processing_rate mock_position mock_total : Int)
    (j : PermJson) (case_number submission_date employer_letter : String) :
    Option PermApiRecord :=
  let position := pyOrI j.queue_position (pyOrI j.position j.position_in_queue)
  let processing_rate := pyGetI (pyOrI j.processing_rate j.rate) default_processing_rate
  let status0 := pyGetS j.status "Pending Review"
  let completion_date := pyOrS j.completion_date j.estimated_date
  let remaining_days := pyOrI j.remaining_days j.days_remaining
  let total_applications := pyGetI (pyOrI j.total_applications j.backlog) mock_total
  let lowered := pyLower status0
  let status :=
    if pyIn "approved" lowered || pyIn "certified" lowered then "Approved"
    else if pyIn "denied" lowered || pyIn "rejected" lowered then "Denied"
    else status0
  if pyTruthyI position || processing_rate ≠ default_processing_rate then
    some { position_in_queue := pyGetI position mock_position
           total_applications := total_applications
           last_processed_date := pyGetS completion_date ""
           processing_rate := processing_rate
           status := status
           completion_date := completion_date
           remaining_days := remaining_days
           case_number := case_number
           submission_date := submission_date
           employer_letter := employer_letter }
  else none

/-- The results of the seven `re.search` patterns
`PERMScraper._extract_status_from_results` runs over the page text
(`none` = the pattern did not match). -/
structure PageMatches where
  queue_position : Option Int
  rate_per_day : Option Int
  completion_date : Option String
  remaining_days : Option Int
  backlog : Option Int
  confidence_pct : Option Int
  estimated_weeks : Option Int
deriving DecidableEq, Repr

/-- A page with no pattern matched. -/
def PageMatches.empty : PageMatches := ⟨none, none, none, none, none, none, none⟩

/-- The dictionary returned by `PERMScraper._extract_status_from_results`. -/
structure PermPageRecord where
  position_in_queue : Int
  total_applications : Int
  last_processed_date : String
  processing_rate : Int
  status : String
  completion_date : Option String
  remaining_days : Option Int
  confidence_level : Option Int
  estimated_weeks : Option Int
  case_number : String
  submission_date : String
  employer_letter : String
deriving DecidableEq, Repr

/-- `PERMScraper._extract_status_from_results`.  Regex matching over the
rendered page text is abstracted: `m` carries the result of each search
pattern applied to `page_text`.  In the explicit approved/certified (and
denied/rejected) branch the source sets `status` but never assigns the
locals `position`, `processing_rate` and `completion_date`; the
`if position is not None or ...` return guard that follows then raises
`UnboundLocalError`, which the enclosing `except Exception` handler turns
into a `None` return — hence those two branches produce `none` here. -/
def PERMScraper.extract_status_from_results (default_processing_rate mock_position mock_total : Int)
    (page_text : String) (m : PageMatches)
    (case_number submission_date employer_letter : String) : Option PermPageRecord :=
  let lowered := pyLower page_text
  if pyIn "approved" lowered || pyIn "certified" lowered then
    none
  else if pyIn "denied" lowered || pyIn "rejected" lowered then
    none
  else
    let position := m.queue_position
    let processing_rate := m.rate_per_day.getD default_processing_rate
    let completion_date := m.completion_date
    let remaining_days := m.remaining_days
    let total_applications := m.backlog.getD mock_total
    let status :=
      match remaining_days with
      | none => "Pending Review"
      | some rd =>
          if rd ≤ 0 then "Completed"
          else if rd ≤ 30 then "Final Review"
          else if rd ≤ 90 then "In Processing"
          else "In Queue"
    if position.isSome || processing_rate ≠ default_processing_rate || pyTruthyS completion_date then
      some { position_in_queue := pyGetI position mock_position
             total_applications := total_applications
             last_processed_date := pyGetS completion_date ""
             processing_rate := processing_rate
             status := status
             completion_date := completion_date
             remaining_days := remaining_days
             confidence_level := m.confidence_pct
             estimated_weeks := m.estimated_weeks
             case_number := case_number
             submission_date := submission_date
             employer_letter := employer_letter }
    else none
/-! ## USCIS case-status client (`src/uscis_tracker/case_status_api.py`)

`datetime.now().strftime('%Y-%m-%d')` stamps are passed in as a `today_str`
argument. -/

/-- `CaseStatusAPI._extract_form_type`'s prefix table.  The `'G-'` entry is
dead: the 3-character slice compared against the keys never equals a
2-character key. -/
def CaseStatusAPI.form_mapping : List (String × String) :=
  [("YSC", "I-140"), ("WAC", "I-140"), ("LIN", "I-140"), ("SRC", "I-140"),
   ("MSC", "I-140"), ("IOE", "I-140"), ("G-", "I-140")]

/-- `CaseStatusAPI._extract_form_type`: table lookup on the first three
characters; an unmatched 3-character slice is returned as-is
(`form_mapping.get(prefix, prefix)`), and only a case number shorter than
three characters yields "Unknown". -/
def CaseStatusAPI.extract_form_type (case_number : String) : String :=
  if 3 ≤ case_number.toList.length then
    let pfx : String := ⟨case_number.toList.take 3⟩
    match CaseStatusAPI.form_mapping.lookup pfx with
    | some v => v
    | none => pfx
  else "Unknown"

/-- `CaseStatusAPI._determine_case_type`'s table. -/
def CaseStatusAPI.case_mapping : List (String × String) :=
  [("I-140", "Immigrant Petition for Alien Worker"),
   ("I-485", "Application to Register Permanent Residence"),
   ("I-765", "Application for Employment Authorization"),
   ("I-131", "Application for Travel Document"),
   ("I-129", "Petition for Nonimmigrant Worker")]

/-- `CaseStatusAPI._determine_case_type`. -/
def CaseStatusAPI.determine_case_type (form_type : String) : String :=
  (CaseStatusAPI.case_mapping.lookup form_type).getD "Unknown Case Type"

/-- The record shape `CaseStatusAPI` produces (the `api_response` /
`raw_response` echo fields are left out). -/
structure UscisRecord where
  case_number : String
  status : String
  last_updated : String
  form_type : String
  case_type : String
  office : String
  details : String
  data_source : String
  method : String
  error : Option String
deriving DecidableEq, Repr

/-- The JSON keys `CaseStatusAPI._parse_api_response` reads. -/
structure UscisJson where
  status : Option String
  caseStatus : Option String
  statusText : Option String
  lastUpdated : Option String
  updatedDate : Option String
  lastModified : Option String
  formType : Option String
  form : Option String
  office : Option String
  serviceCenter : Option String
  details : Option String
  description : Option String
  message : Option String
deriving DecidableEq, Repr

/-- A JSON object with no keys set. -/
def UscisJson.empty : UscisJson :=
  ⟨none, none, none, none, none, none, none, none, none, none, none, none, none⟩

/-- `CaseStatusAPI._parse_api_response` (its `try` body is total on the
embedded JSON shape). -/
def CaseStatusAPI.parse_api_response (j : UscisJson) (case_number : String) : UscisRecord :=
  let status := pyGetS j.status (pyGetS j.caseStatus (j.statusText.getD "Unknown"))
  let last_updated := pyGetS j.lastUpdated (pyGetS j.updatedDate (j.lastModified.getD ""))
  let form_type := pyGetS j.formType (pyGetS j.form (CaseStatusAPI.extract_form_type case_number))
  let office := pyGetS j.office (pyGetS j.serviceCenter "USCIS Service Center")
  let details := pyGetS j.details (pyGetS j.description (j.message.getD ""))
  { case_number := case_number
    status := status
    last_updated := last_updated
    form_type := form_type
    case_type := CaseStatusAPI.determine_case_type form_type
    office := office
    details := details
    data_source := "uscis.gov"
    method := "official_api_oauth2"
    error := none }

/-- `CaseStatusAPI._parse_text_response`: first stripped line holding one of
the status keywords, else "Status not found"; details hold the body,
truncated at 200 characters. -/
def CaseStatusAPI.parse_text_response (today_str text_content case_number : String) : UscisRecord :=
  let keywords := ["received", "approved", "denied", "pending", "processing"]
  let status_text :=
    match (text_content.splitOn "\n").find?
        (fun line => keywords.any (fun k => pyIn k (pyLower line.trim))) with
    | some line => line.trim
    | none => "Status not found"
  let form_type := CaseStatusAPI.extract_form_type case_number
  { case_number := case_number
    status := status_text
    last_updated := today_str
    form_type := form_type
    case_type := CaseStatusAPI.determine_case_type form_type
    office := "USCIS Service Center"
    details := if 200 < text_content.toList.length
               then String.mk (text_content.toList.take 200) ++ "..."
               else text_content
    data_source := "uscis.gov"
    method := "api_text"
    error := none }

/-- `CaseStatusAPI._create_not_found_response`. -/
def CaseStatusAPI.create_not_found_response (today_str case_number : String) : UscisRecord :=
  let form_type := CaseStatusAPI.extract_form_type case_number
  { case_number := case_number
    status := "Case Not Found"
    last_updated := today_str
    form_type := form_type
    case_type := CaseStatusAPI.determine_case_type form_type
    office := "USCIS Service Center"
    details := "The case number was not found in the USCIS system."
    data_source := "uscis.gov"
    method := "official_api_oauth2"
    error := some "case_not_found" }

/-- `CaseStatusAPI._create_unauthorized_response`. -/
def CaseStatusAPI.create_unauthorized_response (today_str case_number : String) : UscisRecord :=
  let form_type := CaseStatusAPI.extract_form_type case_number
  { case_number := case_number
    status := "Access Denied"
    last_updated := today_str
    form_type := form_type
    case_type := CaseStatusAPI.determine_case_type form_type
    office := "USCIS Service Center"
    details := "API access requires authentication."
    data_source := "uscis.gov"
    method := "official_api_oauth2"
    error := some "unauthorized" }

/-- `CaseStatusAPI._create_service_unavailable_response`. -/
def CaseStatusAPI.create_service_unavailable_response (today_str case_number : String) : UscisRecord :=
  let form_type := CaseStatusAPI.extract_form_type case_number
  { case_number := case_number
    status := "Service Temporarily Unavailable"
    last_updated := today_str
    form_type := form_type
    case_type := CaseStatusAPI.determine_case_type form_type
    office := "USCIS Service Center"
    details := "The USCIS API is temporarily unavailable. Please try again later."
    data_source := "uscis.gov"
    method := "official_api_oauth2"
    error := some "service_unavailable" }

/-- One scripted outcome of `session.get` on the case-status endpoint. -/
inductive HttpResp where
  | okJson (j : UscisJson)
  | okText (t : String)
  | unauthorized
  | notFound
  | serviceUnavailable
  | otherStatus
  | netError
deriving DecidableEq, Repr

/-- What `_get_status_from_api` returns: a record, `None`, or (model-only)
fuel exhaustion standing for the unbounded 401-refresh recursion. -/
inductive ApiResult where
  | record (r : UscisRecord)
  | noResult
  | outOfFuel
deriving DecidableEq, Repr

/-- Result of a `_get_status_from_api` run plus instrumentation: how many
case-status HTTP calls were made, how many token-refresh attempts the 401
handler performed, and the deterministic `2 ** attempt` base of each
backoff sleep (the `random.uniform(0, 1)` jitter summand is not modelled). -/
structure ApiOutcome where
  result : ApiResult
  calls : Nat
  refreshes : Nat
  backoff_waits : List Nat
deriving DecidableEq, Repr

/-- `CaseStatusAPI._get_status_from_api`.  `responses` scripts the HTTP
responses by call index; `refresh_ok` scripts whether the n-th token
refresh (`_get_access_token` from the 401 handler) yields a token.
`budget = retries - attempt` counts the iterations the
`for attempt in range(self.retries)` loop still has (`budget = 0` is loop
exit, `return None`); the `attempt < self.retries - 1` retry condition is
`0 < budget` for the iteration consuming `budget + 1`.  On a 401 with a
successful refresh the source re-enters the whole method
(`return self._get_status_from_api(case_number)`), restarting the loop
with a fresh budget — in Python that recursion is bounded only by the
interpreter's recursion limit, so the model spends one unit of `gas` per
iteration and marks exhaustion with `outOfFuel`; with `gas` large enough
(every claim below supplies it) the model and the source agree. -/
def CaseStatusAPI.api_loop (today_str case_number : String) (retries : Nat)
    (responses : Nat → HttpResp) (refresh_ok : Nat → Bool) :
    Nat → Nat → Nat → Nat → List Nat → ApiOutcome
  | _, 0, calls, refs, waits => ⟨.noResult, calls, refs, waits⟩
  | 0, _ + 1, calls, refs, waits => ⟨.outOfFuel, calls, refs, waits⟩
  | gas + 1, budget + 1, calls, refs, waits =>
    let attempt := retries - (budget + 1)
    match responses calls with
    | .okJson j =>
        ⟨.record (CaseStatusAPI.parse_api_response j case_number), calls + 1, refs, waits⟩
    | .okText t =>
        ⟨.record (CaseStatusAPI.parse_text_response today_str t case_number), calls + 1, refs, waits⟩
    | .unauthorized =>
        if refresh_ok refs then
          CaseStatusAPI.api_loop today_str case_number retries responses refresh_ok
            gas retries (calls + 1) (refs + 1) waits
        else
          ⟨.record (CaseStatusAPI.create_unauthorized_response today_str case_number),
           calls + 1, refs + 1, waits⟩
    | .notFound =>
        ⟨.record (CaseStatusAPI.create_not_found_response today_str case_number),
         calls + 1, refs, waits⟩
    | .serviceUnavailable =>
        if 0 < budget then
          CaseStatusAPI.api_loop today_str case_number retries responses refresh_ok
            gas budget (calls + 1) refs (waits ++ [2 ^ attempt])
        else
          ⟨.record (CaseStatusAPI.create_service_unavailable_response today_str case_number),
           calls + 1, refs, waits⟩
    | .otherStatus =>
        if 0 < budget then
          CaseStatusAPI.api_loop today_str case_number retries responses refresh_ok
            gas budget (calls + 1) refs (waits ++ [2 ^ attempt])
        else ⟨.noResult, calls + 1, refs, waits⟩
    | .netError =>
        if 0 < budget then
          CaseStatusAPI.api_loop today_str case_number retries responses refresh_ok
            gas budget (calls + 1) refs (waits ++ [2 ^ attempt])
        else ⟨.noResult, calls + 1, refs, waits⟩

/-- Entry point of `CaseStatusAPI._get_status_from_api`: the loop starts at
attempt 0 with nothing consumed. -/
def CaseStatusAPI.get_status_from_api (today_str case_number : String) (retries : Nat)
    (responses : Nat → HttpResp) (refresh_ok : Nat → Bool) (gas : Nat) : ApiOutcome :=
  CaseStatusAPI.api_loop today_str case_number retries responses refresh_ok gas retries 0 0 []

/-! ## Email notifiers (`notifier.py` and `src/uscis_tracker/notifier.py`)

Both `_create_email_body` methods pick the HTML accent color from the
status string; only the color choice carries logic. -/

/-- Accent color chosen by `EmailNotificationService._create_email_body` in
`src/uscis_tracker/notifier.py`. -/
def uscis_notifier_status_color (current_status : String) : String :=
  let lowered := pyLower current_status
  if pyIn "approved" lowered then "#28a745"
  else if pyIn "denied" lowered then "#dc3545"
  else if pyIn "rfe" lowered || pyIn "request for evidence" lowered then "#fd7e14"
  else if pyIn "pending" lowered then "#ffc107"
  else if pyIn "received" lowered then "#6f42c1"
  else "#007bff"

/-- Accent color chosen by `EmailNotificationService._create_email_body` in
the top-level `notifier.py` (PERM): only approved/denied/pending rules. -/
def perm_notifier_status_color (current_status : String) : String :=
  let lowered := pyLower current_status
  if pyIn "approved" lowered then "#28a745"
  else if pyIn "denied" lowered then "#dc3545"
  else if pyIn "pending" lowered then "#ffc107"
  else "#007bff"

/-- `EmailNotificationService._extract_service_center_from_case_number`'s
table (`src/uscis_tracker/notifier.py`). -/
def service_center_mapping : List (String × String) :=
  [("YSC", "Vermont Service Center"), ("WAC", "California Service Center"),
   ("LIN", "Nebraska Service Center"), ("SRC", "Texas Service Center"),
   ("MSC", "Missouri Service Center"), ("IOE", "Electronic Filing")]

/-- `EmailNotificationService._extract_service_center_from_case_number`. -/
def extract_service_center_from_case_number (case_number : String) : String :=
  if 3 ≤ case_number.toList.length then
    (service_center_mapping.lookup (⟨case_number.toList.take 3⟩ : String)).getD
      "Unknown Service Center"
  else "Unknown Service Center"

/-! ## Supporting lemmas -/

/-- `ceil_div` is monotone in the dividend for a positive divisor. -/
theorem ceil_div_mono_left {a₁ a₂ b : Int} (hb : 0 < b) (h : a₁ ≤ a₂) :
    ceil_div a₁ b ≤ ceil_div a₂ b := by
  unfold ceil_div
  have h1 : (-a₂).fdiv b ≤ (-a₁).fdiv b := by
    rw [Int.fdiv_eq_ediv _ hb.le, Int.fdiv_eq_ediv _ hb.le]
    exact Int.ediv_le_ediv hb (by omega)
  omega

/-- For a positive rate the guard keeps the rate, and base days are
monotone in the position. -/
theorem base_days_mono (default_processing_rate r p₁ p₂ : Int) (hr : 0 < r) (h : p₁ ≤ p₂) :
    ETAEstimator.base_days default_processing_rate p₁ r ≤
      ETAEstimator.base_days default_processing_rate p₂ r := by
  have hrr : ¬ r ≤ 0 := by omega
  simp only [ETAEstimator.base_days, hrr, if_false]
  exact ceil_div_mono_left hr h

/-- Days remaining (base + 20% buffer, floored at 1) are monotone in the
position for a positive rate. -/
theorem days_remaining_mono (default_processing_rate r p₁ p₂ : Int) (hr : 0 < r) (h : p₁ ≤ p₂) :
    ETAEstimator.calculate_days_remaining default_processing_rate p₁ r ≤
      ETAEstimator.calculate_days_remaining default_processing_rate p₂ r := by
  have hb := base_days_mono default_processing_rate r p₁ p₂ hr h
  have hc := ceil_div_mono_left (b := 5) (by norm_num) hb
  simp only [ETAEstimator.calculate_days_remaining]
  exact max_le_max le_rfl (by omega)

/-- Claim C4: the two end-to-end estimator scenarios.  Position 500 at
rate 50 gives base 10, total 12, confidence factors 0.2+0.2+0.2+0.1 = 0.7
(70 hundredths) and label "High"; position 5000 at rate 10 gives base 500
(total 600), factors 0.05+0.05+0.05+0.1 = 0.25 (25 hundredths) and label
"Low".  The submission date (10 days before today in the scenario) does
not enter the main-path computation. -/
theorem eta_concrete_scenarios :
    ETAEstimator.base_days 50 500 50 = 10 ∧
    ETAEstimator.calculate_days_remaining 50 500 50 = 12 ∧
    ETAEstimator.confidence_score 500 50 12 = 70 ∧
    ETAEstimator.determine_confidence_level 500 50 12 = "High" ∧
    (ETAEstimator.calculate_eta 50 5000 1500 738895 500 50 (some 738885)
        "2024-01-01").days_remaining = 12 ∧
    (ETAEstimator.calculate_eta 50 5000 1500 738895 500 50 (some 738885)
        "2024-01-01").confidence_level = "High" ∧
    ETAEstimator.base_days 50 5000 10 = 500 ∧
    ETAEstimator.calculate_days_remaining 50 5000 10 = 600 ∧
    ETAEstimator.confidence_score 5000 10 600 = 25 ∧
    ETAEstimator.determine_confidence_level 5000 10 600 = "Low" ∧
    (ETAEstimator.calculate_eta 50 5000 1500 738895 5000 10 (some 738885)
        "2024-01-01").confidence_level = "Low" := by
  decide

/-- Claim C5: days remaining are monotone in the queue position with the
rate held fixed. -/
theorem eta_monotone_in_position (default_processing_rate processing_rate p₁ p₂ : Int)
    (hr : 0 < processing_rate) (hp : 0 < p₁) (hle : p₁ ≤ p₂) :
    ETAEstimator.calculate_days_remaining default_processing_rate p₁ processing_rate ≤
      ETAEstimator.calculate_days_remaining default_processing_rate p₂ processing_rate :=
  days_remaining_mono default_processing_rate processing_rate p₁ p₂ hr hle

/-- Witness for C5 at positions 5 ≤ 10, rate 3. -/
theorem eta_monotone_in_position_witness :
    (0 : Int) < 3 ∧ (0 : Int) < 5 ∧ (5 : Int) ≤ 10 ∧
    ETAEstimator.calculate_days_remaining 50 5 3 ≤ ETAEstimator.calculate_days_remaining 50 10 3 :=
  ⟨by decide, by decide, by decide,
   eta_monotone_in_position 50 3 5 10 (by decide) (by decide) (by decide)⟩

/-- Claim C1 (code evaluation at the failing input): a page whose text
contains "approved" takes the explicit-approval branch of
`_extract_status_from_results` (first conjunct), yet the function yields
no record: the branch never assigns the locals its return guard reads, the
guard raises `UnboundLocalError`, and the handler returns `None`.  A
"denied" page behaves the same. -/
theorem extract_status_approved_page_yields_no_record :
    pyIn "approved" (pyLower "Your PERM case has been APPROVED") = true ∧
    PERMScraper.extract_status_from_results 50 1500 5000
      "Your PERM case has been APPROVED" PageMatches.empty "A-12345-67890" "2024-01-01" "G" = none ∧
    pyIn "denied" (pyLower "Your PERM case has been DENIED") = true ∧
    PERMScraper.extract_status_from_results 50 1500 5000
      "Your PERM case has been DENIED" PageMatches.empty "A-12345-67890" "2024-01-01" "G" = none := by
  decide

/-- Truthiness of a Python `or` chain is the disjunction of truthiness. -/
theorem pyTruthyI_pyOrI (a b : Option Int) :
    pyTruthyI (pyOrI a b) = (pyTruthyI a || pyTruthyI b) := by
  rcases a with _ | v
  · simp [pyOrI, pyTruthyI]
  · by_cases hv : v = 0 <;> simp [pyOrI, pyTruthyI, hv]

/-- If a defaulted `or` chain produced a non-default value, some key
supplied that value. -/
theorem pyGetI_pyOrI_ne {a b : Option Int} {d : Int}
    (h : pyGetI (pyOrI a b) d ≠ d) :
    ∃ v, (a = some v ∨ b = some v) ∧ v ≠ d := by
  rcases a with _ | v
  · rcases b with _ | w
    · exact absurd rfl h
    · by_cases hw : w = 0
      · exact absurd (by simp [pyOrI, pyGetI, hw]) h
      · refine ⟨w, Or.inr rfl, ?_⟩
        simpa [pyOrI, pyGetI, hw] using h
  · by_cases hv : v = 0
    · subst hv
      rcases b with _ | w
      · exact absurd (by simp [pyOrI, pyGetI]) h
      · by_cases hw : w = 0
        · exact absurd (by simp [pyOrI, pyGetI, hw]) h
        · refine ⟨w, Or.inr rfl, ?_⟩
          simpa [pyOrI, pyGetI, hw] using h
    · refine ⟨v, Or.inl rfl, ?_⟩
      simpa [pyOrI, pyGetI, hv] using h

/-- If every supplied key equals the default, the defaulted `or` chain
returns the default. -/
theorem pyGetI_pyOrI_default {a b : Option Int} {d : Int}
    (h : ∀ v, a = some v ∨ b = some v → v = d) : pyGetI (pyOrI a b) d = d := by
  rcases a with _ | v
  · rcases b with _ | w
    · rfl
    · have hw := h w (Or.inr rfl)
      simp [pyOrI, pyGetI, hw]
  · by_cases hv : v = 0
    · subst hv
      rcases b with _ | w
      · simp [pyOrI, pyGetI]
      · have hw := h w (Or.inr rfl)
        simp [pyOrI, pyGetI, hw]
    · have hv2 := h v (Or.inl rfl)
      subst hv2
      simp [pyOrI, pyGetI, hv]

/-- Claim C10: the JSON branch of the PERM `_parse_api_response` yields a
record only when the JSON supplies a truthy value under one of
`queue_position`/`position`/`position_in_queue` or a processing-rate
value different from the configured default; a JSON supplying neither —
for example one with only a status string, or a zero position — yields no
record (the caller then falls through to the next strategy). -/
theorem parse_api_response_requires_position_or_rate
    (default_processing_rate mock_position mock_total : Int) (j : PermJson)
    (case_number submission_date employer_letter : String) :
    ((PERMScraper.parse_api_response default_processing_rate mock_position mock_total j
        case_number submission_date employer_letter).isSome = true →
      pyTruthyI j.queue_position = true ∨ pyTruthyI j.position = true ∨
      pyTruthyI j.position_in_queue = true ∨
      ∃ v : Int, (j.processing_rate = some v ∨ j.rate = some v) ∧ v ≠ default_processing_rate) ∧
    ((pyTruthyI j.queue_position = false ∧ pyTruthyI j.position = false ∧
      pyTruthyI j.position_in_queue = false ∧
      (∀ v : Int, j.processing_rate = some v ∨ j.rate = some v → v = default_processing_rate)) →
      PERMScraper.parse_api_response default_processing_rate mock_position mock_total j
        case_number submission_date employer_letter = none) ∧
    PERMScraper.parse_api_response 50 1500 5000
      { PermJson.empty with status := some "Pending Review" } "CN" "2024-01-01" "G" = none ∧
    PERMScraper.parse_api_response 50 1500 5000
      { PermJson.empty with queue_position := some 0 } "CN" "2024-01-01" "G" = none := by
  refine ⟨?_, ?_, by decide, by decide⟩
  · intro h
    by_cases hC : pyTruthyI (pyOrI j.queue_position (pyOrI j.position j.position_in_queue)) = true
    · rw [pyTruthyI_pyOrI, pyTruthyI_pyOrI] at hC
      rcases Bool.or_eq_true_iff.mp hC with h1 | h23
      · exact Or.inl h1
      · rcases Bool.or_eq_true_iff.mp h23 with h2 | h3
        · exact Or.inr (Or.inl h2)
        · exact Or.inr (Or.inr (Or.inl h3))
    · by_cases hR : pyGetI (pyOrI j.processing_rate j.rate) default_processing_rate =
          default_processing_rate
      · exfalso
        have hCf : pyTruthyI (pyOrI j.queue_position (pyOrI j.position j.position_in_queue)) =
            false := by
          exact Bool.not_eq_true _ ▸ eq_false_of_ne_true hC
        simp [PERMScraper.parse_api_response, hCf, hR] at h
      · exact Or.inr (Or.inr (Or.inr (pyGetI_pyOrI_ne hR)))
  · rintro ⟨h1, h2, h3, h4⟩
    have hrate := pyGetI_pyOrI_default h4
    have hpos : pyTruthyI (pyOrI j.queue_position (pyOrI j.position j.position_in_queue)) = false := by
      rw [pyTruthyI_pyOrI, pyTruthyI_pyOrI, h1, h2, h3]
      rfl
    simp [PERMScraper.parse_api_response, hpos, hrate]

/-- Witness for C10 at the empty JSON object. -/
theorem parse_api_response_requires_position_or_rate_witness :
    PERMScraper.parse_api_response 50 1500 5000 PermJson.empty "CN" "2024-01-01" "G" = none :=
  (parse_api_response_requires_position_or_rate 50 1500 5000 PermJson.empty
      "CN" "2024-01-01" "G").2.1
    ⟨by decide, by decide, by decide,
     fun _ hv => by rcases hv with h | h <;> simp [PermJson.empty] at h⟩

/-- Claim C2 (counterexample): with the response script 401, 401, 200 and
every token refresh succeeding, the strategy performs two token refreshes
(not exactly one) and finishes with the parsed 200 record: a 401 on the
retried call triggers a further refresh-and-retry instead of an
"Access Denied" record. -/
theorem api_401_double_refresh_counterexample :
    CaseStatusAPI.get_status_from_api "2024-01-01" "WAC1234567890" 3
      (fun n => if n < 2 then .unauthorized else .okJson UscisJson.empty) (fun _ => true) 9 =
      ⟨.record (CaseStatusAPI.parse_api_response UscisJson.empty "WAC1234567890"), 3, 2, []⟩ ∧
    (CaseStatusAPI.parse_api_response UscisJson.empty "WAC1234567890").status ≠ "Access Denied" := by
  decide

/-- Claim C2 (amended): on a 401 the strategy attempts one token refresh;
if the refresh fails to yield a token it returns (never raises) the
well-formed record with status "Access Denied"; if the refresh succeeds it
re-enters the call with a fresh retry budget, so a 401 on the retry leads
to a second refresh attempt — "Access Denied" is produced exactly by a
failed refresh, illustrated by the one-refresh and two-refresh runs. -/
theorem api_401_refresh_behaviour (today_str case_number : String) (retries gas : Nat)
    (responses : Nat → HttpResp) (refresh_ok : Nat → Bool) (hr : 1 ≤ retries) :
    (1 ≤ gas → responses 0 = .unauthorized → refresh_ok 0 = false →
      CaseStatusAPI.get_status_from_api today_str case_number retries responses refresh_ok gas =
        ⟨.record (CaseStatusAPI.create_unauthorized_response today_str case_number), 1, 1, []⟩) ∧
    (2 ≤ gas → responses 0 = .unauthorized → refresh_ok 0 = true →
      responses 1 = .unauthorized → refresh_ok 1 = false →
      CaseStatusAPI.get_status_from_api today_str case_number retries responses refresh_ok gas =
        ⟨.record (CaseStatusAPI.create_unauthorized_response today_str case_number), 2, 2, []⟩) ∧
    (CaseStatusAPI.create_unauthorized_response today_str case_number).status = "Access Denied" := by
  obtain ⟨r, rfl⟩ : ∃ r, retries = r + 1 := ⟨retries - 1, by omega⟩
  refine ⟨?_, ?_, rfl⟩
  · intro hg h0 hf
    obtain ⟨g, rfl⟩ : ∃ g, gas = g + 1 := ⟨gas - 1, by omega⟩
    simp [CaseStatusAPI.get_status_from_api, CaseStatusAPI.api_loop, h0, hf]
  · intro hg h0 ht h1 hf
    obtain ⟨g, rfl⟩ : ∃ g, gas = g + 2 := ⟨gas - 2, by omega⟩
    simp [CaseStatusAPI.get_status_from_api, CaseStatusAPI.api_loop, h0, ht, h1, hf]

/-- Witness for C2 (amended) on an all-401 script whose first refresh
fails, with three configured retries. -/
theorem api_401_refresh_behaviour_witness :
    CaseStatusAPI.get_status_from_api "2024-01-01" "WAC1234567890" 3
      (fun _ => .unauthorized) (fun _ => false) 4 =
      ⟨.record (CaseStatusAPI.create_unauthorized_response "2024-01-01" "WAC1234567890"),
       1, 1, []⟩ :=
  (api_401_refresh_behaviour "2024-01-01" "WAC1234567890" 3 4
      (fun _ => .unauthorized) (fun _ => false) (by decide)).1 (by decide) rfl rfl

/-- On an all-503 script the loop walks its whole budget, sleeping
`2 ^ attempt` (plus jitter) between attempts, then returns the
service-unavailable record. -/
theorem api_loop_all_503 (today_str case_number : String) (retries : Nat)
    (refresh_ok : Nat → Bool) :
    ∀ budget gas calls refs waits, 1 ≤ budget → budget ≤ gas → budget ≤ retries →
      CaseStatusAPI.api_loop today_str case_number retries (fun _ => .serviceUnavailable)
        refresh_ok gas budget calls refs waits =
      ⟨.record (CaseStatusAPI.create_service_unavailable_response today_str case_number),
       calls + budget, refs,
       waits ++ (List.range (budget - 1)).map (fun i => 2 ^ (retries - budget + i))⟩ := by
  intro budget
  induction budget with
  | zero => intro gas calls refs waits h1 _ _; exact absurd h1 (by omega)
  | succ b ih =>
    intro gas calls refs waits _ h2 h3
    obtain ⟨g, rfl⟩ : ∃ g, gas = g + 1 := ⟨gas - 1, by omega⟩
    rcases Nat.eq_zero_or_pos b with hb | hb
    · subst hb
      simp [CaseStatusAPI.api_loop]
    · obtain ⟨b', rfl⟩ : ∃ b', b = b' + 1 := ⟨b - 1, by omega⟩
      have hrec := ih g (calls + 1) refs (waits ++ [2 ^ (retries - (b' + 1 + 1))])
        hb (by omega) (by omega)
      simp only [CaseStatusAPI.api_loop, hb, if_true]
      rw [hrec]
      have harith : calls + 1 + (b' + 1) = calls + (b' + 1 + 1) := by omega
      have hwaits :
          (waits ++ [2 ^ (retries - (b' + 1 + 1))]) ++
            (List.range (b' + 1 - 1)).map (fun i => 2 ^ (retries - (b' + 1) + i)) =
          waits ++ (List.range (b' + 1 + 1 - 1)).map
            (fun i => 2 ^ (retries - (b' + 1 + 1) + i)) := by
        rw [List.append_assoc]
        congr 1
        have hb1 : b' + 1 + 1 - 1 = b' + 1 := by omega
        have hb2 : b' + 1 - 1 = b' := by omega
        rw [hb1, hb2, List.range_succ_eq_map, List.map_cons, List.map_map,
          List.singleton_append]
        congr 1
        simp
        intro a ha
        omega
      rw [harith, hwaits]

/-- Claim C6: on a script of nothing but 503 responses the strategy makes
exactly `retries` attempts, sleeping `2 ^ attempt` seconds (plus jitter,
not modelled) between consecutive attempts, performs no token refresh, and
returns the well-formed service-unavailable record instead of raising. -/
theorem api_all_503_exhausts_retries (today_str case_number : String) (retries gas : Nat)
    (refresh_ok : Nat → Bool) (hr : 1 ≤ retries) (hg : retries ≤ gas) :
    CaseStatusAPI.get_status_from_api today_str case_number retries
        (fun _ => .serviceUnavailable) refresh_ok gas =
      ⟨.record (CaseStatusAPI.create_service_unavailable_response today_str case_number),
       retries, 0, (List.range (retries - 1)).map (fun i => 2 ^ i)⟩ ∧
    (CaseStatusAPI.create_service_unavailable_response today_str case_number).status =
      "Service Temporarily Unavailable" ∧
    (CaseStatusAPI.create_service_unavailable_response today_str case_number).error =
      some "service_unavailable" := by
  refine ⟨?_, rfl, rfl⟩
  have h := api_loop_all_503 today_str case_number retries refresh_ok retries gas 0 0 []
    hr hg le_rfl
  rw [CaseStatusAPI.get_status_from_api, h]
  simp

/-- Witness for C6 with three configured retries. -/
theorem api_all_503_exhausts_retries_witness :
    CaseStatusAPI.get_status_from_api "2024-01-01" "WAC1234567890" 3
        (fun _ => .serviceUnavailable) (fun _ => true) 3 =
      ⟨.record (CaseStatusAPI.create_service_unavailable_response "2024-01-01" "WAC1234567890"),
       3, 0, (List.range 2).map (fun i => 2 ^ i)⟩ :=
  (api_all_503_exhausts_retries "2024-01-01" "WAC1234567890" 3 3 (fun _ => true)
    (by decide) (by decide)).1

/-- Claim C8 (counterexample): a case number with the unmatched prefix
"XYZ" maps to form type "XYZ" — the prefix itself, not "Unknown" — and to
"Unknown Service Center" (not "Unknown") in the service-center lookup. -/
theorem form_type_unmatched_not_unknown :
    CaseStatusAPI.extract_form_type "XYZ1234567890" = "XYZ" ∧
    CaseStatusAPI.extract_form_type "XYZ1234567890" ≠ "Unknown" ∧
    extract_service_center_from_case_number "XYZ1234567890" = "Unknown Service Center" ∧
    extract_service_center_from_case_number "XYZ1234567890" ≠ "Unknown" := by
  decide

/-- Claim C8 (amended): "WAC1234567890" maps to form type "I-140" and
service center "California Service Center"; a case number of length ≥ 3
whose 3-character prefix is in neither table yields that prefix itself
from the form-type lookup and "Unknown Service Center" from the
service-center lookup; only case numbers shorter than 3 characters give
form type "Unknown". -/
theorem case_prefix_lookup_behaviour :
    CaseStatusAPI.extract_form_type "WAC1234567890" = "I-140" ∧
    extract_service_center_from_case_number "WAC1234567890" = "California Service Center" ∧
    (∀ cn : String, 3 ≤ cn.toList.length →
      CaseStatusAPI.form_mapping.lookup (⟨cn.toList.take 3⟩ : String) = none →
      CaseStatusAPI.extract_form_type cn = (⟨cn.toList.take 3⟩ : String)) ∧
    (∀ cn : String, 3 ≤ cn.toList.length →
      service_center_mapping.lookup (⟨cn.toList.take 3⟩ : String) = none →
      extract_service_center_from_case_number cn = "Unknown Service Center") ∧
    (∀ cn : String, cn.toList.length < 3 →
      CaseStatusAPI.extract_form_type cn = "Unknown" ∧
      extract_service_center_from_case_number cn = "Unknown Service Center") := by
  refine ⟨by decide, by decide, ?_, ?_, ?_⟩
  · intro cn h3 hl
    simp only [CaseStatusAPI.extract_form_type]
    rw [if_pos h3, hl]
  · intro cn h3 hl
    simp only [extract_service_center_from_case_number]
    rw [if_pos h3, hl]
    rfl
  · intro cn h3
    have hn : ¬ 3 ≤ cn.toList.length := by omega
    constructor
    · simp only [CaseStatusAPI.extract_form_type]
      rw [if_neg hn]
    · simp only [extract_service_center_from_case_number]
      rw [if_neg hn]

/-- Witness for C8 (amended) at the unmatched prefix "XYZ" and the short
case number "AB". -/
theorem case_prefix_lookup_behaviour_witness :
    CaseStatusAPI.extract_form_type "XYZ1234567890" = (⟨"XYZ1234567890".toList.take 3⟩ : String) ∧
    extract_service_center_from_case_number "XYZ1234567890" = "Unknown Service Center" ∧
    CaseStatusAPI.extract_form_type "AB" = "Unknown" :=
  ⟨case_prefix_lookup_behaviour.2.2.1 "XYZ1234567890" (by decide) (by decide),
   case_prefix_lookup_behaviour.2.2.2.1 "XYZ1234567890" (by decide) (by decide),
   (case_prefix_lookup_behaviour.2.2.2.2 "AB" (by decide)).1⟩

/-- Claim C9 (counterexample): the PERM notifier colors a status
containing "received" (or "rfe") with the default blue, not purple
(or orange) as the claimed rule set requires. -/
theorem perm_notifier_missing_rules :
    perm_notifier_status_color "Case Was Received" = "#007bff" ∧
    perm_notifier_status_color "Case Was Received" ≠ "#6f42c1" ∧
    perm_notifier_status_color "RFE Issued" = "#007bff" ∧
    perm_notifier_status_color "RFE Issued" ≠ "#fd7e14" := by
  decide

/-- Claim C9 (amended): the USCIS-tracker notifier picks its accent color
by exactly the claimed six substring rules; the PERM notifier implements
only the approved/denied/pending rules, every other status falling to the
default blue. -/
theorem notifier_status_color_rules (s : String) :
    (pyIn "approved" (pyLower s) = true →
      uscis_notifier_status_color s = "#28a745" ∧ perm_notifier_status_color s = "#28a745") ∧
    (pyIn "approved" (pyLower s) = false → pyIn "denied" (pyLower s) = true →
      uscis_notifier_status_color s = "#dc3545" ∧ perm_notifier_status_color s = "#dc3545") ∧
    (pyIn "approved" (pyLower s) = false → pyIn "denied" (pyLower s) = false →
      (pyIn "rfe" (pyLower s) || pyIn "request for evidence" (pyLower s)) = true →
      uscis_notifier_status_color s = "#fd7e14") ∧
    (pyIn "approved" (pyLower s) = false → pyIn "denied" (pyLower s) = false →
      (pyIn "rfe" (pyLower s) || pyIn "request for evidence" (pyLower s)) = false →
      pyIn "pending" (pyLower s) = true →
      uscis_notifier_status_color s = "#ffc107") ∧
    (pyIn "approved" (pyLower s) = false → pyIn "denied" (pyLower s) = false →
      (pyIn "rfe" (pyLower s) || pyIn "request for evidence" (pyLower s)) = false →
      pyIn "pending" (pyLower s) = false → pyIn "received" (pyLower s) = true →
      uscis_notifier_status_color s = "#6f42c1") ∧
    (pyIn "approved" (pyLower s) = false → pyIn "denied" (pyLower s) = false →
      (pyIn "rfe" (pyLower s) || pyIn "request for evidence" (pyLower s)) = false →
      pyIn "pending" (pyLower s) = false → pyIn "received" (pyLower s) = false →
      uscis_notifier_status_color s = "#007bff") ∧
    (pyIn "approved" (pyLower s) = false → pyIn "denied" (pyLower s) = false →
      pyIn "pending" (pyLower s) = false →
      perm_notifier_status_color s = "#007bff") := by
  refine ⟨?_, ?_, ?_, ?_, ?_, ?_, ?_⟩ <;>
    intros <;>
    first
      | exact ⟨by simp [uscis_notifier_status_color, *], by simp [perm_notifier_status_color, *]⟩
      | simp [uscis_notifier_status_color, *]
      | simp [perm_notifier_status_color, *]

/-- Witness for C9 (amended) at an "approved" status. -/
theorem notifier_status_color_rules_witness :
    uscis_notifier_status_color "Case Was Approved" = "#28a745" ∧
    perm_notifier_status_color "Case Was Approved" = "#28a745" :=
  (notifier_status_color_rules "Case Was Approved").1 (by decide)
